import Mathlib

/-!
Verification development for the thrifter deal-discovery pipeline.

Shallow embedding of the pricing engine (`backend/services/pricing.py`),
the eBay aggregator (`backend/services/ebay_service.py`), the deal scanner
(`backend/services/deal_scanner.py`) and the opportunity store
(`backend/services/inventory.py`).  Python floats are modelled by exact
rationals `ℚ`; Python's `round` (banker's rounding, round-half-to-even)
is modelled exactly by `halfEven`; `dict` values that may be `None` are
modelled by `Option`.
-/

namespace Thrifter

/-- Round-half-to-even on rationals: the model of Python's built-in
`round(x)` to an integer.  At a tie (`x - ⌊x⌋ = 1/2`) it picks the even
neighbour; elsewhere it agrees with rounding to the nearest integer. -/
def halfEven (x : ℚ) : ℤ :=
  let f := x.floor
  if x - f = 1/2 then (if f % 2 = 0 then f else f + 1) else (x + 1/2).floor

/-- Model of Python `round(x, n)` for `n` decimal digits. -/
def roundTo (n : ℕ) (x : ℚ) : ℚ := (halfEven (x * 10 ^ n) : ℚ) / 10 ^ n

/-- `round(x, 2)` — round to cents. -/
def roundC (x : ℚ) : ℚ := roundTo 2 x

/-- `round(x, 1)` — round to one decimal. -/
def round1 (x : ℚ) : ℚ := roundTo 1 x

/-- Python truthiness of an optional number: `None` and `0` are falsy. -/
def pyFalsy : Option ℚ → Bool
  | none => true
  | some v => v == 0

/-- Python `a or b` on optional numbers (`None`/`0` are falsy). -/
def pyOr (a b : Option ℚ) : Option ℚ := if pyFalsy a then b else a

/-- `round(v, 2) if v else None` — the guarded rounding used for the
price statistics in `analyze_prices`. -/
def roundIfTruthy (a : Option ℚ) : Option ℚ :=
  if pyFalsy a then none else a.map roundC

/-- `statistics.mean` (callers only apply it to non-empty lists). -/
def lmean (l : List ℚ) : ℚ := l.sum / l.length

/-- `statistics.median`: sort, take the middle element for odd length, the
average of the two middle elements for even length; `none` on `[]`. -/
def medianOpt (l : List ℚ) : Option ℚ :=
  let s := l.insertionSort (· ≤ ·)
  let n := l.length
  if n = 0 then none
  else if n % 2 = 1 then s[n / 2]?
  else match s[n / 2 - 1]?, s[n / 2]? with
    | some a, some b => some ((a + b) / 2)
    | _, _ => none

/-- Sample variance (denominator `n - 1`), the square of
`statistics.stdev`; callers only use it for `n ≥ 3`. -/
def sampleVar (l : List ℚ) : ℚ :=
  (l.map (fun x => (x - lmean l) ^ 2)).sum / ((l.length - 1 : ℕ) : ℚ)

/-- The spread test `stdev(sold)/mean(sold) > 0.5` of
`_calculate_recommendation`, stated without square roots: for a positive
mean it is equivalent to `4·variance > mean²` (square both non-negative
sides); for a negative mean the Python comparison is false since
`stdev ≥ 0` (a zero mean would raise, unreachable because callers pass
positive prices only). -/
def highVariance (l : List ℚ) : Bool :=
  0 < lmean l ∧ (lmean l) ^ 2 < 4 * sampleVar l

/-- `min(l)` for Python, `none` on `[]`. -/
def minOpt (l : List ℚ) : Option ℚ :=
  match l with
  | [] => none
  | x :: xs => some (xs.foldl min x)

/-- `max(l)` for Python, `none` on `[]`. -/
def maxOpt (l : List ℚ) : Option ℚ :=
  match l with
  | [] => none
  | x :: xs => some (xs.foldl max x)

/-- A normalized marketplace listing as the pricing engine and the
scanner consume it (`dict` with these keys; `price` may be `None`). -/
structure Item where
  title : String := ""
  price : Option ℚ := none
  item_url : String := ""
  image_url : String := ""
  condition : String := ""
  seller : String := ""
deriving DecidableEq, Repr

/-- `[i["price"] for i in listings if i.get("price") and i["price"] > 0]` —
the positive-price filter at the top of `analyze_prices`. -/
def positivePrices (listings : List Item) : List ℚ :=
  (listings.filterMap Item.price).filter (fun p => decide (0 < p))

/-- Output of `_calc_sell_through` (`pricing.py`). -/
structure SellThrough where
  sell_through_pct : Option ℚ
  avg_days_to_sell : Option ℚ
  liquidity : String
  total_sold_recently : ℕ
  total_completed_recently : ℕ
  total_active_supply : ℕ
  supply_demand_note : Option String
deriving DecidableEq, Repr

/-- `_calc_sell_through` (`pricing.py:50`).  The wall-clock dependent
parsing of `sold_date` strings is abstracted into the `dayDiffs`
parameter: the list of day differences that parsed and fell inside the
0–180-day window (no claim concerns `avg_days_to_sell`). -/
def calcSellThrough (dayDiffs : List ℕ) (total_sold total_completed total_active : ℕ) :
    SellThrough :=
  let str_pct : Option ℚ :=
    if 0 < total_completed then
      some (round1 ((total_sold / total_completed : ℚ) * 100))
    else none
  let avg_days : Option ℚ :=
    if dayDiffs ≠ [] then some (round1 (lmean (dayDiffs.map (fun d => (d : ℚ))))) else none
  let liquidity : String :=
    match str_pct with
    | some p =>
      if 60 ≤ p then "hot"
      else if 35 ≤ p then "steady"
      else if 15 ≤ p then "slow"
      else "dead"
    | none => if 10 < total_sold then "steady" else "unknown"
  let supply_demand : Option String :=
    if 0 < total_active ∧ 0 < total_sold then
      let ratio : ℚ := (total_sold : ℚ) / (max total_active 1 : ℕ)
      if 3/2 < ratio then some "High demand, low supply"
      else if 7/10 < ratio then some "Balanced market"
      else if 3/10 < ratio then some "Moderate supply"
      else some "Oversaturated — lots of competition"
    else none
  { sell_through_pct := str_pct
    avg_days_to_sell := avg_days
    liquidity := liquidity
    total_sold_recently := total_sold
    total_completed_recently := total_completed
    total_active_supply := total_active
    supply_demand_note := supply_demand }

/-- Output of `_calculate_recommendation` (`pricing.py`).  The degraded
"not enough data" dict has `None`/missing entries for every field but
`confidence` and `note`; a missing key read through `.get` behaves as
`None`, so both dict shapes are modelled by one structure with `Option`
fields.  The constant `assumptions` sub-dict is omitted (no claim or
caller reads it). -/
structure Recommendation where
  max_buy_price : Option ℚ
  estimated_sell_price : Option ℚ
  net_after_fees : Option ℚ
  estimated_profit : Option ℚ
  roi_percent : Option ℚ
  confidence : String
  spread_warning : Option String
  liquidity_warning : Option String
  note : Option String
deriving DecidableEq, Repr

/-- `_calculate_recommendation` (`pricing.py:121`).  `if not
reference_price` is Python truthiness: `None` and `0` both degrade. -/
def calculateRecommendation (reference_price : Option ℚ) (sold_prices : List ℚ)
    (sell_through : SellThrough) : Recommendation :=
  if pyFalsy reference_price then
    { max_buy_price := none
      estimated_sell_price := none
      net_after_fees := none
      estimated_profit := none
      roi_percent := none
      confidence := "low"
      spread_warning := none
      liquidity_warning := none
      note := some "Not enough data to make a recommendation" }
  else
    let reference := reference_price.getD 0
    let selling_fees_pct : ℚ := 13/100
    let avg_shipping : ℚ := 7
    let target_roi : ℚ := 40/100
    let net_after_fees := reference * (1 - selling_fees_pct) - avg_shipping
    let max_buy0 := net_after_fees / (1 + target_roi)
    let confidence :=
      if 10 ≤ sold_prices.length then "high"
      else if 5 ≤ sold_prices.length then "medium"
      else "low"
    let spread_hit := 3 ≤ sold_prices.length ∧ highVariance sold_prices
    let spread_warning : Option String :=
      if spread_hit then
        some "High price variance — condition and exact model matter a lot. Be cautious."
      else none
    let max_buy1 := if spread_hit then max_buy0 * (8/10) else max_buy0
    let liquidity := sell_through.liquidity
    let liquidity_warning : Option String :=
      if liquidity = "dead" then some "Very low sell-through. This item may sit for months."
      else if liquidity = "slow" then some "Slow seller — be patient or price aggressively."
      else none
    let max_buy :=
      if liquidity = "dead" then max_buy1 * (6/10)
      else if liquidity = "slow" then max_buy1 * (85/100)
      else max_buy1
    let estimated_profit := net_after_fees - max_buy
    { max_buy_price := some (roundC (max max_buy 0))
      estimated_sell_price := some (roundC reference)
      net_after_fees := some (roundC net_after_fees)
      estimated_profit := some (roundC (max estimated_profit 0))
      roi_percent := some (if 0 < max_buy then round1 ((estimated_profit / max_buy) * 100) else 0)
      confidence := confidence
      spread_warning := spread_warning
      liquidity_warning := liquidity_warning
      note := none }

/-- The per-factor breakdown of `_calculate_deal_score` (rounded ints). -/
structure Breakdown where
  profit : ℤ
  demand : ℤ
  confidence : ℤ
  risk : ℤ
deriving DecidableEq, Repr

/-- Output of `_calculate_deal_score` (`pricing.py`); the "NO DATA"
dict carries no breakdown. -/
structure DealScore where
  score : ℤ
  verdict : String
  color : String
  summary : String
  breakdown : Option Breakdown
deriving DecidableEq, Repr

/-- `_calculate_deal_score` (`pricing.py:187`).  `roi` is read with
`.get("roi_percent", 0)`; past the "NO DATA" guard the recommendation
always carries `roi_percent = some _`, so `getD 0` is faithful on every
input reachable from `_calculate_recommendation`. -/
def calculateDealScore (recommendation : Recommendation) (sell_through : SellThrough) :
    DealScore :=
  let roi := recommendation.roi_percent.getD 0
  let conf := recommendation.confidence
  let str_pct := sell_through.sell_through_pct
  let liquidity := sell_through.liquidity
  if recommendation.estimated_profit = none ∨ recommendation.max_buy_price = none then
    { score := 0, verdict := "NO DATA", color := "gray",
      summary := "Not enough market data.", breakdown := none }
  else
    let profit_score : ℚ :=
      if 100 ≤ roi then 100
      else if 60 ≤ roi then 80
      else if 40 ≤ roi then 60
      else if 20 ≤ roi then 40
      else max roi 0
    let str_score : ℚ :=
      match str_pct with
      | some p => min (p * (3/2)) 100
      | none =>
        if liquidity = "hot" then 80
        else if liquidity = "steady" then 55
        else 30
    let conf_score : ℚ :=
      if conf = "high" then 100 else if conf = "medium" then 60 else 25
    let risk0 : ℚ := 80
    let risk1 := if recommendation.spread_warning ≠ none then risk0 - 30 else risk0
    let risk2 := if recommendation.liquidity_warning ≠ none then risk1 - 20 else risk1
    let risk_score := max risk2 0
    let composite :=
      profit_score * (40/100) + str_score * (35/100) + conf_score * (15/100)
        + risk_score * (10/100)
    let vc : String × String :=
      if 75 ≤ composite then ("HOT DEAL", "green")
      else if 55 ≤ composite then ("GOOD DEAL", "blue")
      else if 35 ≤ composite then ("OKAY", "yellow")
      else ("PASS", "red")
    let summary :=
      if vc.1 = "HOT DEAL" then "Strong profit margin with solid demand. Buy with confidence."
      else if vc.1 = "GOOD DEAL" then "Decent profit potential. Worth picking up at the right price."
      else if vc.1 = "OKAY" then "Marginal opportunity. Only buy if priced well below the max."
      else "Low margin or poor sell-through. Skip this one."
    { score := halfEven composite
      verdict := vc.1
      color := vc.2
      summary := summary
      breakdown := some
        { profit := halfEven profit_score
          demand := halfEven str_score
          confidence := halfEven conf_score
          risk := halfEven risk_score } }

/-- `avg/median/low/high` block of the `analyze_prices` output. -/
structure PriceStats where
  average : Option ℚ
  median : Option ℚ
  low : Option ℚ
  high : Option ℚ
deriving DecidableEq, Repr

/-- Output of `analyze_prices` (`pricing.py`). -/
structure MarketSummary where
  active_listings_count : ℕ
  sold_listings_count : ℕ
  total_active_on_market : ℕ
  asking_price : PriceStats
  sold_price : PriceStats
  sell_through : SellThrough
  recommendation : Recommendation
  deal_score : DealScore
deriving DecidableEq, Repr

/-- `analyze_prices` (`pricing.py:5`).  `dayDiffs` abstracts the
wall-clock `sold_date` parsing of `_calc_sell_through` (see there).
`reference_price = median_sold or median_asking` is Python `or`
(`None`/`0` falsy), modelled by `pyOr`. -/
def analyzePrices (active_listings sold_listings : List Item) (dayDiffs : List ℕ)
    (total_active total_sold total_completed : ℕ) : MarketSummary :=
  let active_prices := positivePrices active_listings
  let sold_prices := positivePrices sold_listings
  let avg_asking := if active_prices ≠ [] then some (lmean active_prices) else none
  let median_asking := medianOpt active_prices
  let avg_sold := if sold_prices ≠ [] then some (lmean sold_prices) else none
  let median_sold := medianOpt sold_prices
  let reference_price := pyOr median_sold median_asking
  let sell_through := calcSellThrough dayDiffs total_sold total_completed total_active
  let recommendation := calculateRecommendation reference_price sold_prices sell_through
  let deal_score := calculateDealScore recommendation sell_through
  { active_listings_count := active_prices.length
    sold_listings_count := sold_prices.length
    total_active_on_market := total_active
    asking_price :=
      { average := roundIfTruthy avg_asking
        median := roundIfTruthy median_asking
        low := (minOpt active_prices).map roundC
        high := (maxOpt active_prices).map roundC }
    sold_price :=
      { average := roundIfTruthy avg_sold
        median := roundIfTruthy median_sold
        low := (minOpt sold_prices).map roundC
        high := (maxOpt sold_prices).map roundC }
    sell_through := sell_through
    recommendation := recommendation
    deal_score := deal_score }

/-- Result of one adapter sub-search: `(listings, totalCount)`, or an
exception captured by `asyncio.gather(..., return_exceptions=True)`. -/
abbrev SubResult := Except Unit (List Item × ℕ)

/-- `([], 0) if isinstance(r, Exception) else r` — the degradation of a
failed sub-search. -/
def degrade (r : SubResult) : List Item × ℕ := r.toOption.getD ([], 0)

/-- The dict returned by `search_all` / `scrape_all`
(`ebay_service.py`, `ebay_scraper.py`). -/
structure SearchResult where
  active : List Item
  sold : List Item
  total_active : ℕ
  total_sold : ℕ
  total_completed : ℕ
  source_mode : String
deriving DecidableEq, Repr

/-- `scrape_all` (`ebay_scraper.py:229`): gather the three scraped
sub-searches, degrading each failure to empty/zero.  The network fetches
themselves are the environment; their outcomes are the parameters.  The
dict it returns has no `source_mode` key yet; `search_all` adds it, so
it is left empty here. -/
def scrapeAll (scrActive scrSold scrCompleted : SubResult) : SearchResult :=
  let a := degrade scrActive
  let s := degrade scrSold
  let c := degrade scrCompleted
  { active := a.1, sold := s.1, total_active := a.2, total_sold := s.2,
    total_completed := c.2, source_mode := "" }

/-- `_api_keys_configured()` outcome and the live `ebay_mode` setting
are environment reads; they are parameters of `searchAll`. -/
def apiKeysConfigured (app_id : String) : Bool :=
  app_id ≠ "" ∧ app_id ≠ "your-ebay-app-id"

/-- `search_all` (`ebay_service.py:207`): route through the API or the
scraper based on `mode` and key availability; in the API branch, fall
back to scraping (when `mode ≠ "api"`) if the API produced no active and
no sold listings; if neither branch runs, return the all-empty result
with `source_mode = "none"`.  The six `SubResult` parameters are the
outcomes of the API and scraper sub-searches. -/
def searchAll (mode : String) (keysConfigured : Bool)
    (apiActive apiSold apiCompleted scrActive scrSold scrCompleted : SubResult) :
    SearchResult :=
  let use_api := mode = "api" ∨ (mode = "auto" ∧ keysConfigured)
  let use_scrape := mode = "scrape" ∨ (mode = "auto" ∧ ¬ keysConfigured)
  let scraped :=
    { scrapeAll scrActive scrSold scrCompleted with source_mode := "scrape" }
  let noneResult : SearchResult :=
    { active := [], sold := [], total_active := 0, total_sold := 0,
      total_completed := 0, source_mode := "none" }
  if use_api then
    let a := degrade apiActive
    let s := degrade apiSold
    let c := degrade apiCompleted
    if a.1 ≠ [] ∨ s.1 ≠ [] then
      { active := a.1, sold := s.1, total_active := a.2, total_sold := s.2,
        total_completed := c.2, source_mode := "api" }
    else if mode ≠ "api" then scraped
    else if use_scrape then scraped
    else noneResult
  else if use_scrape then scraped
  else noneResult

/-- A watch-query dict as `_scan_one_query` reads it; `min_profit` and
`min_deal_score` are read with `.get(…, default)`, so missing keys are
`none` here and the defaults (5.0 / 50) are applied at the read site. -/
structure WatchQuery where
  id : String
  query : String
  max_buy_price : Option ℚ := none
  min_profit : Option ℚ := none
  min_deal_score : Option ℚ := none
deriving DecidableEq, Repr

/-- The dict handed to `inventory.add_opportunity` by the scanner. -/
structure OppRecord where
  watch_query_id : String
  ebay_item_id : String
  title : String
  current_price : ℚ
  estimated_sell_price : ℚ
  estimated_profit : ℚ
  deal_score : ℤ
  deal_verdict : String
  item_url : String
  image_url : String
  condition : String
  seller : String
deriving DecidableEq, Repr

/-- `_extract_ebay_id` (`deal_scanner.py:116`): the numeric path segment
after `/itm/` (before any `?`, after the last `/`), else the raw URL.
Python's `str.isdigit` is false on the empty string. -/
def extractEbayId (url : String) : String :=
  let parts := url.splitOn "/itm/"
  if 2 ≤ parts.length then
    let afterItm := parts.getLastD ""
    let beforeQuery := (afterItm.splitOn "?").headD ""
    let tail := (beforeQuery.splitOn "/").getLastD ""
    if tail ≠ "" ∧ tail.all Char.isDigit then tail else url
  else url

/-- The per-listing body of the loop in `_scan_one_query`
(`deal_scanner.py:64`–`109`): `none` when the listing is skipped by one
of the `continue`s, otherwise the opportunity dict whose insertion is
attempted.  `est_sell`, `qscore` and `qverdict` are the values the code
extracts from the pricing result before the loop. -/
def scanFilterItem (max_buy : Option ℚ) (min_profit min_score : ℚ)
    (est_sell : Option ℚ) (qscore : ℤ) (qverdict : String) (wqid : String)
    (item : Item) : Option OppRecord :=
  match item.price with
  | none => none
  | some price =>
    if price ≤ 0 then none
    else if max_buy.any (fun mb => decide (mb < price)) then none
    else
      match est_sell with
      | none => none
      | some es =>
        if es = 0 ∨ ¬ 0 < es then none
        else
          let item_profit := es * (87/100) - 7 - price
          if item_profit < min_profit then none
          else
            let item_roi := item_profit / price * 100
            let item_score : ℤ :=
              if 100 < item_roi then min (qscore + 15) 100
              else if 60 < item_roi then min (qscore + 5) 100
              else qscore
            if (item_score : ℚ) < min_score then none
            else
              let verdict :=
                if 80 ≤ item_roi then "HOT DEAL"
                else if 50 ≤ item_roi then "GOOD DEAL"
                else qverdict
              some
                { watch_query_id := wqid
                  ebay_item_id := extractEbayId item.item_url
                  title := item.title
                  current_price := price
                  estimated_sell_price := es
                  estimated_profit := roundC item_profit
                  deal_score := item_score
                  deal_verdict := verdict
                  item_url := item.item_url
                  image_url := item.image_url
                  condition := item.condition
                  seller := item.seller }

/-- `_scan_one_query` (`deal_scanner.py:25`), up to the store: the list
of opportunity dicts whose insertion is attempted, in listing order.
`activeR`/`soldR` are the gathered sub-search outcomes
(`return_exceptions=True`); a failed active search aborts the query's
scan, a failed sold search degrades to `([], 0)`; `total_completed` is
taken to be `total_sold` (the deliberate rate-limit approximation). -/
def scanOneQuery (wq : WatchQuery) (activeR soldR : SubResult) (dayDiffs : List ℕ) :
    List OppRecord :=
  match activeR with
  | .error _ => []
  | .ok (active_items, total_active) =>
    let sd := degrade soldR
    if active_items = [] then []
    else
      let pricing := analyzePrices active_items sd.1 dayDiffs total_active sd.2 sd.2
      active_items.filterMap
        (scanFilterItem wq.max_buy_price (wq.min_profit.getD 5) (wq.min_deal_score.getD 50)
          pricing.recommendation.estimated_sell_price pricing.deal_score.score
          pricing.deal_score.verdict wq.id)

/-- The opportunities table, modelled as the list of stored rows (only
the scanner-written columns are carried; `id`/`found_at`/`status` do not
bear on any claim and are generated server-side). -/
abbrev OppStore := List OppRecord

/-- `inventory.add_opportunity` (`inventory.py:360`) under the unique
index `idx_opp_ebay_id` on `ebay_item_id` (`inventory.py:81`):
`INSERT OR IGNORE` inserts the row unless a stored row already has the
same `ebay_item_id`, in which case it changes nothing; the function
returns the inserted row when `total_changes > 0` and `None` otherwise
(the connection is opened per call, so `total_changes` counts exactly
this statement). -/
def add_opportunity (store : OppStore) (data : OppRecord) : OppStore × Option OppRecord :=
  if store.any (fun r => r.ebay_item_id = data.ebay_item_id) then (store, none)
  else (store ++ [data], some data)

/-- The invariant enforced by the unique index `idx_opp_ebay_id`: no two
stored rows share an `ebay_item_id`. -/
def uniqueIds (s : OppStore) : Prop :=
  s.Pairwise (fun a b => a.ebay_item_id ≠ b.ebay_item_id)

/-- Scanner run state (`deal_scanner.py:19`): the `_scanner_running`
flag and the `_scanner_task` handle; a task is `some done` where `done`
is `task.done()`. -/
structure ScannerState where
  running : Bool
  task : Option Bool
deriving DecidableEq, Repr

/-- `_scanner_task and not _scanner_task.done()` — a live scan loop. -/
def loopActive (s : ScannerState) : Bool := s.task = some false

/-- `start_scanner` (`deal_scanner.py:167`): refuse if a live task
exists, otherwise set the flag, spawn a fresh loop task, report true. -/
def start_scanner (s : ScannerState) : ScannerState × Bool :=
  if loopActive s then (s, false)
  else ({ running := true, task := some false }, true)

/-- `stop_scanner` (`deal_scanner.py:176`): refuse if the flag is
already down, otherwise clear it and report true. -/
def stop_scanner (s : ScannerState) : ScannerState × Bool :=
  if ¬ s.running then (s, false)
  else ({ s with running := false }, true)

/-- `is_scanner_running` (`deal_scanner.py:184`). -/
def is_scanner_running (s : ScannerState) : Bool :=
  s.running ∧ loopActive s

/-- States reachable from process start (`⟨false, none⟩`) by the
start/stop controls and the two state-relevant events of
`_scanner_loop`: the loop body re-asserts the flag on entry
(`deal_scanner.py:150`), and the loop only exits — completing its task —
after observing the flag down (`deal_scanner.py:153`). -/
inductive Reachable : ScannerState → Prop
  | init : Reachable ⟨false, none⟩
  | start {s} : Reachable s → Reachable (start_scanner s).1
  | stop {s} : Reachable s → Reachable (stop_scanner s).1
  | loopEnter {s : ScannerState} : Reachable s → s.task = some false →
      Reachable ⟨true, s.task⟩
  | loopExit {s : ScannerState} : Reachable s → s.task = some false → s.running = false →
      Reachable ⟨s.running, some true⟩

theorem ratFloor_eq (q : ℚ) : q.floor = ⌊q⌋ :=
  (Rat.floor_def' q).trans Rat.floor_def.symm

theorem halfEven_ge {n : ℤ} {x : ℚ} (h : (n : ℚ) ≤ x) : n ≤ halfEven x := by
  simp only [halfEven, ratFloor_eq]
  split
  · split
    · exact Int.le_floor.mpr h
    · exact le_trans (Int.le_floor.mpr h) (by omega)
  · exact Int.le_floor.mpr (le_trans h (by linarith))

theorem roundTo_nonneg {n : ℕ} {x : ℚ} (h : 0 ≤ x) : 0 ≤ roundTo n x := by
  unfold roundTo
  have h0 : (0:ℤ) ≤ halfEven (x * 10 ^ n) := by
    have hx : ((0:ℤ) : ℚ) ≤ x * 10 ^ n := by positivity
    exact halfEven_ge hx
  have h1 : (0:ℚ) ≤ (halfEven (x * 10 ^ n) : ℚ) := by exact_mod_cast h0
  exact div_nonneg h1 (by positivity)

theorem positivePrices_pos (l : List Item) : ∀ x ∈ positivePrices l, 0 < x := by
  intro x hx
  simp only [positivePrices, List.mem_filter] at hx
  exact of_decide_eq_true hx.2

theorem medianOpt_mem_or_avg {l : List ℚ} {m : ℚ} (hm : medianOpt l = some m) :
    m ∈ l ∨ ∃ a ∈ l, ∃ b ∈ l, m = (a + b) / 2 := by
  have hperm : ∀ x : ℚ, x ∈ l.insertionSort (· ≤ ·) ↔ x ∈ l := fun x =>
    (List.perm_insertionSort (· ≤ ·) l).mem_iff
  simp only [medianOpt] at hm
  split at hm
  · exact absurd hm (by simp)
  · split at hm
    · exact Or.inl ((hperm m).mp (List.getElem?_mem hm))
    · split at hm
      · next a b ha hb =>
        refine Or.inr ⟨a, (hperm a).mp (List.getElem?_mem ha), b,
          (hperm b).mp (List.getElem?_mem hb), ?_⟩
        exact (Option.some_inj.mp hm).symm
      · exact absurd hm (by simp)

theorem medianOpt_pos {l : List ℚ} (hl : ∀ x ∈ l, 0 < x) {m : ℚ}
    (hm : medianOpt l = some m) : 0 < m := by
  rcases medianOpt_mem_or_avg hm with h | ⟨a, ha, b, hb, rfl⟩
  · exact hl m h
  · have := hl a ha
    have := hl b hb
    linarith

/-- C6: for `total_completed > 0` the sell-through percent is
`100 × total_sold / total_completed` rounded to one decimal, else it is
undefined and liquidity is `steady` exactly above 10 sold; when defined,
liquidity follows the ≥60/≥35/≥15 tiers (boundaries inclusive). -/
theorem sell_through_spec (days : List ℕ) (ts tc ta : ℕ) :
    (0 < tc →
      (calcSellThrough days ts tc ta).sell_through_pct =
        some (round1 (100 * (ts : ℚ) / tc))) ∧
    (tc = 0 →
      (calcSellThrough days ts tc ta).sell_through_pct = none ∧
      (calcSellThrough days ts tc ta).liquidity =
        (if 10 < ts then "steady" else "unknown")) ∧
    (∀ p, (calcSellThrough days ts tc ta).sell_through_pct = some p →
      (calcSellThrough days ts tc ta).liquidity =
        (if 60 ≤ p then "hot" else if 35 ≤ p then "steady"
         else if 15 ≤ p then "slow" else "dead")) := by
  by_cases htc : 0 < tc
  · simp only [calcSellThrough, if_pos htc]
    refine ⟨fun _ => ?_, fun h0 => absurd h0 (by omega), fun p hp => ?_⟩
    · have harg : ((ts : ℚ) / tc) * 100 = 100 * (ts : ℚ) / tc := by ring
      rw [harg]
    · obtain rfl : round1 (((ts : ℚ) / tc) * 100) = p := Option.some_inj.mp hp
      rfl
  · have htc0 : tc = 0 := by omega
    subst htc0
    simp only [calcSellThrough, if_neg htc]
    exact ⟨fun h => absurd h (by omega), fun _ => ⟨by trivial, by trivial⟩,
      fun p hp => by cases hp⟩

theorem sell_through_spec_witness :
    0 < 100 ∧
    (calcSellThrough [] 30 100 0).sell_through_pct = some 30 ∧
    (calcSellThrough [] 30 100 0).liquidity = "slow" := by
  have h1 := (sell_through_spec [] 30 100 0).1 (by norm_num)
  have h30 : (calcSellThrough [] 30 100 0).sell_through_pct = some 30 := by
    rw [h1]; with_unfolding_all decide
  have h2 := (sell_through_spec [] 30 100 0).2.2 30 h30
  refine ⟨by norm_num, h30, ?_⟩
  rw [h2]; with_unfolding_all decide

/-- C8: from every reachable scanner state, `start` returns false iff a
scan loop is already active, and otherwise returns true and starts the
loop; `stop` returns false iff the scanner flag is already down; after a
successful start, a second start returns false, and a following
stop; stop returns true then false. -/
theorem scanner_start_stop_spec (s : ScannerState) (_hs : Reachable s) :
    ((start_scanner s).2 = false ↔ loopActive s = true) ∧
    ((start_scanner s).2 = true →
      loopActive (start_scanner s).1 = true ∧ (start_scanner s).1.running = true) ∧
    ((stop_scanner s).2 = false ↔ s.running = false) ∧
    ((start_scanner s).2 = true →
      (start_scanner (start_scanner s).1).2 = false ∧
      (stop_scanner (start_scanner (start_scanner s).1).1).2 = true ∧
      (stop_scanner
        (stop_scanner (start_scanner (start_scanner s).1).1).1).2 = false) := by
  clear _hs
  by_cases h : s.task = some false
  · refine ⟨by simp [start_scanner, loopActive, h], by simp [start_scanner, loopActive, h],
      ?_, by simp [start_scanner, loopActive, h]⟩
    cases hr : s.running <;> simp [stop_scanner, hr]
  · refine ⟨by simp [start_scanner, loopActive, h], by simp [start_scanner, loopActive, h],
      ?_, ?_⟩
    · cases hr : s.running <;> simp [stop_scanner, hr]
    · intro _
      simp [start_scanner, stop_scanner, loopActive, h]

theorem scanner_start_stop_spec_witness :
    (start_scanner ⟨false, none⟩).2 = true ∧
    (start_scanner (start_scanner ⟨false, none⟩).1).2 = false ∧
    (stop_scanner (start_scanner (start_scanner ⟨false, none⟩).1).1).2 = true ∧
    (stop_scanner
      (stop_scanner (start_scanner (start_scanner ⟨false, none⟩).1).1).1).2 = false := by
  have hstart : (start_scanner ⟨false, none⟩).2 = true := by decide
  have h := (scanner_start_stop_spec ⟨false, none⟩ Reachable.init).2.2.2 hstart
  exact ⟨hstart, h.1, h.2.1, h.2.2⟩

/-- C9 counterexample: in `api` mode with all three authoritative
sub-searches failing, `search_all` labels the empty result `"none"`,
not `"api"` as claimed. -/
theorem search_all_api_failure_not_api :
    (searchAll "api" true (.error ()) (.error ()) (.error ())
        (.ok ([], 0)) (.ok ([], 0)) (.ok ([], 0))).source_mode = "none" ∧
    ¬ (searchAll "api" true (.error ()) (.error ()) (.error ())
        (.ok ([], 0)) (.ok ([], 0)) (.ok ([], 0))).source_mode = "api" := by
  constructor <;> with_unfolding_all decide

/-- C9 (amended): in `api` mode, when all three authoritative
sub-searches fail, `search_all` returns empty listing lists with zero
totals and mode label `"none"`. -/
theorem search_all_api_total_failure (keys : Bool) (scrA scrS scrC : SubResult) :
    searchAll "api" keys (.error ()) (.error ()) (.error ()) scrA scrS scrC =
      { active := [], sold := [], total_active := 0, total_sold := 0,
        total_completed := 0, source_mode := "none" } := by
  simp [searchAll, degrade, Except.toOption]

/-- C1: in `auto` mode with credentials configured, an API round that
produces zero active and zero sold listings falls back to the scraped
adapter and reports `source_mode = "scrape"` with the scraper's results;
an API round with at least one active or sold listing reports
`source_mode = "api"`; no input ever yields `source_mode = "auto"`. -/
theorem search_all_auto_spec :
    (∀ (apiA apiS apiC scrA scrS scrC : SubResult),
      (degrade apiA).1 = [] → (degrade apiS).1 = [] →
      searchAll "auto" true apiA apiS apiC scrA scrS scrC =
        { scrapeAll scrA scrS scrC with source_mode := "scrape" }) ∧
    (∀ (apiA apiS apiC scrA scrS scrC : SubResult),
      ((degrade apiA).1 ≠ [] ∨ (degrade apiS).1 ≠ []) →
      searchAll "auto" true apiA apiS apiC scrA scrS scrC =
        { active := (degrade apiA).1, sold := (degrade apiS).1,
          total_active := (degrade apiA).2, total_sold := (degrade apiS).2,
          total_completed := (degrade apiC).2, source_mode := "api" }) ∧
    (∀ (mode : String) (keys : Bool) (apiA apiS apiC scrA scrS scrC : SubResult),
      (searchAll mode keys apiA apiS apiC scrA scrS scrC).source_mode ≠ "auto") := by
  refine ⟨?_, ?_, ?_⟩
  · intro apiA apiS apiC scrA scrS scrC hA hS
    simp [searchAll, hA, hS]
  · intro apiA apiS apiC scrA scrS scrC h
    rcases h with h | h <;> simp [searchAll, h]
  · intro mode keys apiA apiS apiC scrA scrS scrC
    simp only [searchAll]
    split_ifs <;> simp

theorem search_all_auto_spec_witness :
    (degrade (.ok ([], 3) : SubResult)).1 = [] ∧
    (searchAll "auto" true (.ok ([], 3)) (.ok ([], 4)) (.ok ([], 9))
        (.ok ([⟨"t", some 5, "u", "i", "c", "s"⟩], 7)) (.ok ([], 1))
        (.ok ([], 2))).source_mode = "scrape" := by
  refine ⟨rfl, ?_⟩
  rw [search_all_auto_spec.1 (.ok ([], 3)) (.ok ([], 4)) (.ok ([], 9))
    (.ok ([⟨"t", some 5, "u", "i", "c", "s"⟩], 7)) (.ok ([], 1)) (.ok ([], 2)) rfl rfl]

/-- C10: a failed sold search does not abort `_scan_one_query` — the run
is identical to one with an empty sold result; `analyze_prices` with no
sold samples takes the median asking price as its reference (the
estimated sell price is that median, rounded, when it exists); and such
a run can still produce opportunities. -/
theorem scan_sold_failure_degrades :
    (∀ (wq : WatchQuery) (a : List Item) (ta : ℕ) (days : List ℕ),
      scanOneQuery wq (.ok (a, ta)) (.error ()) days =
        scanOneQuery wq (.ok (a, ta)) (.ok ([], 0)) days) ∧
    (∀ (a : List Item) (days : List ℕ) (ta : ℕ),
      (analyzePrices a [] days ta 0 0).recommendation.estimated_sell_price =
        (medianOpt (positivePrices a)).map roundC) ∧
    (∃ (wq : WatchQuery) (a : List Item) (ta : ℕ) (days : List ℕ),
      scanOneQuery wq (.ok (a, ta)) (.error ()) days ≠ []) := by
  refine ⟨fun wq a ta days => rfl, fun a days ta => ?_, ?_⟩
  · simp only [analyzePrices]
    have h0 : pyOr (medianOpt (positivePrices ([] : List Item)))
        (medianOpt (positivePrices a)) = medianOpt (positivePrices a) := by
      simp [positivePrices, medianOpt, pyOr, pyFalsy]
    rw [h0]
    cases hmed : medianOpt (positivePrices a) with
    | none => simp [calculateRecommendation, pyFalsy]
    | some m =>
      have hm : 0 < m := medianOpt_pos (positivePrices_pos a) hmed
      have hf : pyFalsy (some m) = false := by
        simp [pyFalsy]
        exact hm.ne.symm
      simp [calculateRecommendation, hf]
  · refine ⟨⟨"w1", "q", none, none, none⟩,
      [⟨"", some 10, "", "", "", ""⟩, ⟨"", some 100, "", "", "", ""⟩,
       ⟨"", some 100, "", "", "", ""⟩], 3, [], ?_⟩
    with_unfolding_all decide

theorem filter_id_count_one {idv : String} :
    ∀ s : OppStore, uniqueIds s → (∃ r ∈ s, r.ebay_item_id = idv) →
      (s.filter (fun r => r.ebay_item_id == idv)).length = 1 := by
  intro s
  induction s with
  | nil => intro _ h; simp at h
  | cons a t ih =>
    intro hu h
    simp only [uniqueIds, List.pairwise_cons] at hu
    by_cases ha : a.ebay_item_id = idv
    · have ht : t.filter (fun x => x.ebay_item_id == idv) = [] := by
        rw [List.filter_eq_nil_iff]
        intro b hb
        simp only [beq_iff_eq]
        intro hc
        exact hu.1 b hb (by rw [ha, hc])
      simp [List.filter_cons, ha, ht]
    · obtain ⟨r, hr, he⟩ := h
      rcases List.mem_cons.mp hr with rfl | hrt
      · exact absurd he ha
      · have haf : (a.ebay_item_id == idv) = false := by simp [ha]
        simp only [List.filter_cons, haf, Bool.false_eq_true, if_false]
        exact ih hu.2 ⟨r, hrt, he⟩

/-- C7: inserting an opportunity whose `ebay_item_id` collides with a
stored row is a silent no-op (`None`, store unchanged, still exactly one
row with that id); inserting under a fresh id appends exactly one row;
id-uniqueness of the store is preserved. -/
theorem add_opportunity_dedup_spec (store : OppStore) (data : OppRecord)
    (hu : uniqueIds store) :
    ((∃ r ∈ store, r.ebay_item_id = data.ebay_item_id) →
      add_opportunity store data = (store, none) ∧
      ((add_opportunity store data).1.filter
          (fun r => r.ebay_item_id == data.ebay_item_id)).length = 1) ∧
    ((∀ r ∈ store, r.ebay_item_id ≠ data.ebay_item_id) →
      add_opportunity store data = (store ++ [data], some data) ∧
      ((add_opportunity store data).1.filter
          (fun r => r.ebay_item_id == data.ebay_item_id)).length = 1) ∧
    uniqueIds (add_opportunity store data).1 := by
  by_cases hdup : ∃ r ∈ store, r.ebay_item_id = data.ebay_item_id
  · have hany : store.any (fun r => r.ebay_item_id = data.ebay_item_id) = true := by
      rw [List.any_eq_true]
      obtain ⟨r, hr, he⟩ := hdup
      exact ⟨r, hr, by simp [he]⟩
    have heq : add_opportunity store data = (store, none) := by
      simp [add_opportunity, hany]
    refine ⟨fun _ => ⟨heq, ?_⟩, fun hfresh => ?_, ?_⟩
    · rw [heq]
      exact filter_id_count_one store hu hdup
    · obtain ⟨r, hr, he⟩ := hdup
      exact absurd he (hfresh r hr)
    · rw [heq]
      exact hu
  · have hany : store.any (fun r => r.ebay_item_id = data.ebay_item_id) = false := by
      rw [List.any_eq_false]
      intro r hr
      simp only [decide_eq_true_eq]
      exact fun he => hdup ⟨r, hr, he⟩
    have heq : add_opportunity store data = (store ++ [data], some data) := by
      simp [add_opportunity, hany]
    refine ⟨fun h => absurd h hdup, fun _ => ⟨heq, ?_⟩, ?_⟩
    · rw [heq]
      have hst : store.filter (fun r => r.ebay_item_id == data.ebay_item_id) = [] := by
        rw [List.filter_eq_nil_iff]
        intro b hb
        simp only [beq_iff_eq]
        exact fun he => hdup ⟨b, hb, he⟩
      simp [List.filter_append, hst]
    · rw [heq]
      simp only [uniqueIds, List.pairwise_append]
      refine ⟨hu, by simp, ?_⟩
      intro a ha b hb
      simp only [List.mem_singleton] at hb
      subst hb
      exact fun he => hdup ⟨a, ha, he⟩

theorem add_opportunity_dedup_spec_witness :
    uniqueIds [⟨"w1", "111", "t", 5, 9, 1, 50, "OKAY", "u", "i", "c", "s"⟩] ∧
    add_opportunity [⟨"w1", "111", "t", 5, 9, 1, 50, "OKAY", "u", "i", "c", "s"⟩]
        ⟨"w2", "111", "t2", 6, 8, 2, 60, "GOOD DEAL", "u2", "i2", "c2", "s2"⟩ =
      ([⟨"w1", "111", "t", 5, 9, 1, 50, "OKAY", "u", "i", "c", "s"⟩], none) ∧
    add_opportunity []
        ⟨"w1", "111", "t", 5, 9, 1, 50, "OKAY", "u", "i", "c", "s"⟩ =
      ([⟨"w1", "111", "t", 5, 9, 1, 50, "OKAY", "u", "i", "c", "s"⟩],
        some ⟨"w1", "111", "t", 5, 9, 1, 50, "OKAY", "u", "i", "c", "s"⟩) := by
  have hu1 : uniqueIds [⟨"w1", "111", "t", 5, 9, 1, 50, "OKAY", "u", "i", "c", "s"⟩] := by
    simp [uniqueIds]
  have hu0 : uniqueIds ([] : OppStore) := by simp [uniqueIds]
  refine ⟨hu1, ?_, ?_⟩
  · exact ((add_opportunity_dedup_spec _ _ hu1).1
      ⟨⟨"w1", "111", "t", 5, 9, 1, 50, "OKAY", "u", "i", "c", "s"⟩, by simp, rfl⟩).1
  · exact ((add_opportunity_dedup_spec _ _ hu0).2.1 (by simp)).1

/-- C3 counterexample: a defined reference price of `0` is falsy in
Python, so `_calculate_recommendation` degrades to the all-`None` dict
instead of computing `net_after_fees = 0·(1−0.13) − 7`. -/
theorem recommendation_zero_reference_cex :
    (calculateRecommendation (some 0) [] (calcSellThrough [] 0 0 0)).net_after_fees = none ∧
    ¬ (calculateRecommendation (some 0) [] (calcSellThrough [] 0 0 0)).net_after_fees =
        some (roundC ((0 : ℚ) * (1 - 13/100) - 7)) := by
  constructor <;> with_unfolding_all decide

/-- C3 (amended: for a defined non-zero reference price): the
recommendation computes `net = r·(1−0.13) − 7`, `max_buy = net / 1.40`
shrunk by 0.8 under the ≥3-sample high-variance test and then by
0.6/0.85 for dead/slow liquidity, `profit = net − max_buy` recomputed
after each shrink; confidence is high/medium/low at ≥10/≥5 sold
samples; the reported figures are clamped at 0 and rounded to cents. -/
theorem recommendation_formula_spec (r : ℚ) (hr : r ≠ 0) (sold : List ℚ)
    (st : SellThrough) :
    let net := r * (1 - 13/100) - 7
    let mb0 := net / (1 + 40/100)
    let mb1 := if 3 ≤ sold.length ∧ highVariance sold = true then mb0 * (8/10) else mb0
    let mb2 := if st.liquidity = "dead" then mb1 * (6/10)
      else if st.liquidity = "slow" then mb1 * (85/100) else mb1
    (calculateRecommendation (some r) sold st).net_after_fees = some (roundC net) ∧
    (calculateRecommendation (some r) sold st).max_buy_price =
      some (roundC (max mb2 0)) ∧
    (calculateRecommendation (some r) sold st).estimated_profit =
      some (roundC (max (net - mb2) 0)) ∧
    (calculateRecommendation (some r) sold st).estimated_sell_price = some (roundC r) ∧
    (calculateRecommendation (some r) sold st).confidence =
      (if 10 ≤ sold.length then "high"
       else if 5 ≤ sold.length then "medium" else "low") ∧
    ((calculateRecommendation (some r) sold st).spread_warning ≠ none ↔
      (3 ≤ sold.length ∧ highVariance sold = true)) ∧
    ((calculateRecommendation (some r) sold st).liquidity_warning ≠ none ↔
      (st.liquidity = "dead" ∨ st.liquidity = "slow")) := by
  have hf : pyFalsy (some r) = false := by
    simp [pyFalsy]
    exact hr
  simp only [calculateRecommendation, hf, Bool.false_eq_true, if_false, Option.getD_some]
  refine ⟨by trivial, by trivial, by trivial, by trivial, by trivial, ?_, ?_⟩
  · split_ifs <;> simp_all
  · split_ifs <;> simp_all

theorem recommendation_formula_spec_witness :
    (10 : ℚ) ≠ 0 ∧
    (calculateRecommendation (some 10) [] (calcSellThrough [] 0 0 0)).max_buy_price =
      some (121/100) ∧
    (calculateRecommendation (some 10) [] (calcSellThrough [] 0 0 0)).net_after_fees =
      some (17/10) := by
  obtain ⟨h1, h2, -, -, -, -, -⟩ :=
    recommendation_formula_spec 10 (by norm_num) [] (calcSellThrough [] 0 0 0)
  refine ⟨by norm_num, ?_, ?_⟩
  · rw [h2]
    with_unfolding_all decide
  · rw [h1]
    with_unfolding_all decide

theorem calcRec_money_invariants (ref : Option ℚ) (sold : List ℚ) (st : SellThrough)
    (href : ∀ v, ref = some v → 0 ≤ v) :
    (∀ v, (calculateRecommendation ref sold st).max_buy_price = some v → 0 ≤ v) ∧
    (∀ v, (calculateRecommendation ref sold st).estimated_profit = some v → 0 ≤ v) ∧
    (∀ v, (calculateRecommendation ref sold st).estimated_sell_price = some v → 0 ≤ v) ∧
    ((calculateRecommendation ref sold st).roi_percent = none ↔
      (calculateRecommendation ref sold st).max_buy_price = none) := by
  by_cases hf : pyFalsy ref = true
  · simp [calculateRecommendation, hf]
  · have hf' : pyFalsy ref = false := by simpa using hf
    have hnn : 0 ≤ ref.getD 0 := by
      cases href' : ref with
      | none => simp
      | some v => simpa using href v href'
    simp only [calculateRecommendation, hf', Bool.false_eq_true, if_false]
    refine ⟨?_, ?_, ?_, by simp⟩
    · intro v hv
      obtain rfl := Option.some_inj.mp hv.symm
      exact roundTo_nonneg (le_max_right _ _)
    · intro v hv
      obtain rfl := Option.some_inj.mp hv.symm
      exact roundTo_nonneg (le_max_right _ _)
    · intro v hv
      obtain rfl := Option.some_inj.mp hv.symm
      exact roundTo_nonneg hnn

/-- C5 counterexample: with a single active listing priced 5 and no
sold samples, `net_after_fees` is reported as −2.65 (rounded, never
clamped), and `max_buy_price` is clamped to 0 while `roi_percent` is
reported as 0, not null. -/
theorem analyze_prices_money_cex :
    (¬ ∀ v, (analyzePrices [⟨"", some 5, "", "", "", ""⟩] [] [] 0 0 0).recommendation.net_after_fees
        = some v → 0 ≤ v) ∧
    ¬ ((analyzePrices [⟨"", some 5, "", "", "", ""⟩] [] [] 0 0 0).recommendation.max_buy_price
          = some 0 →
        (analyzePrices [⟨"", some 5, "", "", "", ""⟩] [] [] 0 0 0).recommendation.roi_percent
          = none) := by
  constructor
  · intro h
    have hv := h (-53/20) (by with_unfolding_all decide)
    norm_num at hv
  · intro h
    have h2 := h (by with_unfolding_all decide)
    have h3 : (analyzePrices [⟨"", some 5, "", "", "", ""⟩] [] [] 0 0 0).recommendation.roi_percent
        = some 0 := by with_unfolding_all decide
    rw [h3] at h2
    cases h2

/-- C5 (amended): in every `analyze_prices` output, `max_buy_price`,
`estimated_profit` and `estimated_sell_price` are non-negative after
clamping; `net_after_fees` is rounded but not clamped and may be
negative; and `roi_percent` is null exactly when the reference price is
undefined (`max_buy_price` null) — when the unclamped max-buy is ≤ 0 it
is reported as 0, not null. -/
theorem analyze_prices_money_invariants (active sold : List Item) (days : List ℕ)
    (ta ts tc : ℕ) :
    (∀ v, (analyzePrices active sold days ta ts tc).recommendation.max_buy_price = some v →
      0 ≤ v) ∧
    (∀ v, (analyzePrices active sold days ta ts tc).recommendation.estimated_profit = some v →
      0 ≤ v) ∧
    (∀ v, (analyzePrices active sold days ta ts tc).recommendation.estimated_sell_price = some v →
      0 ≤ v) ∧
    ((analyzePrices active sold days ta ts tc).recommendation.roi_percent = none ↔
      (analyzePrices active sold days ta ts tc).recommendation.max_buy_price = none) := by
  have href : ∀ v, pyOr (medianOpt (positivePrices sold)) (medianOpt (positivePrices active))
      = some v → 0 ≤ v := by
    intro v hv
    simp only [pyOr] at hv
    split at hv
    · exact (medianOpt_pos (positivePrices_pos active) hv).le
    · exact (medianOpt_pos (positivePrices_pos sold) hv).le
  exact calcRec_money_invariants _ _ _ href

theorem analyze_prices_money_invariants_witness :
    (analyzePrices [⟨"", some 5, "", "", "", ""⟩] [] [] 0 0 0).recommendation.max_buy_price
      = some 0 ∧ (0 : ℚ) ≤ 0 := by
  have h := (analyze_prices_money_invariants [⟨"", some 5, "", "", "", ""⟩] [] [] 0 0 0).1
  have hm : (analyzePrices [⟨"", some 5, "", "", "", ""⟩] [] [] 0 0 0).recommendation.max_buy_price
      = some 0 := by with_unfolding_all decide
  exact ⟨hm, h 0 hm⟩

theorem scanFilterItem_eq_some_iff {mb : Option ℚ} {mp ms : ℚ} {es : Option ℚ}
    {q : ℤ} {qv wqid : String} {item : Item} {rec : OppRecord} :
    scanFilterItem mb mp ms es q qv wqid item = some rec ↔
      ∃ p e, item.price = some p ∧ 0 < p ∧ (∀ b, mb = some b → p ≤ b) ∧
        es = some e ∧ 0 < e ∧ mp ≤ e * (87/100) - 7 - p ∧
        ms ≤ (((if 100 < (e * (87/100) - 7 - p) / p * 100 then min (q + 15) 100
                else if 60 < (e * (87/100) - 7 - p) / p * 100 then min (q + 5) 100
                else q) : ℤ) : ℚ) ∧
        rec = { watch_query_id := wqid
                ebay_item_id := extractEbayId item.item_url
                title := item.title
                current_price := p
                estimated_sell_price := e
                estimated_profit := roundC (e * (87/100) - 7 - p)
                deal_score :=
                  (if 100 < (e * (87/100) - 7 - p) / p * 100 then min (q + 15) 100
                   else if 60 < (e * (87/100) - 7 - p) / p * 100 then min (q + 5) 100
                   else q)
                deal_verdict :=
                  (if 80 ≤ (e * (87/100) - 7 - p) / p * 100 then "HOT DEAL"
                   else if 50 ≤ (e * (87/100) - 7 - p) / p * 100 then "GOOD DEAL"
                   else qv)
                item_url := item.item_url
                image_url := item.image_url
                condition := item.condition
                seller := item.seller } := by
  constructor
  · intro hne
    cases hp : item.price with
    | none => simp [scanFilterItem, hp] at hne
    | some p =>
      simp only [scanFilterItem, hp] at hne
      by_cases h1 : p ≤ 0
      · simp [h1] at hne
      · rw [if_neg h1] at hne
        by_cases h2 : mb.any (fun b => decide (b < p)) = true
        · simp only [h2, if_true] at hne
          cases hne
        · simp only [h2, Bool.false_eq_true, if_false] at hne
          cases hes : es with
          | none => simp only [hes] at hne; cases hne
          | some e =>
            simp only [hes] at hne
            by_cases h3 : e = 0 ∨ ¬ 0 < e
            · rw [if_pos h3] at hne; cases hne
            · rw [if_neg h3] at hne
              push_neg at h3
              by_cases h4 : e * (87/100) - 7 - p < mp
              · rw [if_pos h4] at hne; cases hne
              · rw [if_neg h4] at hne
                by_cases h5 : (((if 100 < (e * (87/100) - 7 - p) / p * 100
                    then min (q + 15) 100
                    else if 60 < (e * (87/100) - 7 - p) / p * 100 then min (q + 5) 100
                    else q) : ℤ) : ℚ) < ms
                · rw [if_pos h5] at hne; cases hne
                · rw [if_neg h5] at hne
                  refine ⟨p, e, rfl, not_le.mp h1, ?_, rfl, h3.2, not_lt.mp h4,
                    not_lt.mp h5, ?_⟩
                  · intro b hb
                    subst hb
                    simp only [Option.any_some, decide_eq_true_eq] at h2
                    exact not_lt.mp h2
                  · exact (Option.some_inj.mp hne).symm
  · rintro ⟨p, e, hp, hpp, hmb, hes, hee, hprof, hscore, rfl⟩
    have h2 : mb.any (fun b => decide (b < p)) = false := by
      cases mb with
      | none => rfl
      | some b =>
        simp only [Option.any_some, decide_eq_false_iff_not]
        exact not_lt.mpr (hmb b rfl)
    have h3 : ¬ (e = 0 ∨ ¬ 0 < e) := by
      push_neg
      exact ⟨ne_of_gt hee, hee⟩
    simp only [scanFilterItem, hp, hes, if_neg (not_le.mpr hpp), h2, Bool.false_eq_true,
      if_false, if_neg h3, if_neg (not_lt.mpr hprof), if_neg (not_lt.mpr hscore)]

/-- C2: `_scan_one_query` with a successful active fetch attempts an
opportunity insertion exactly for the active listings with a positive
price, below the max-buy cap when set, with a defined positive estimated
sell price, item profit `est_sell·0.87 − 7 − price` at least
`min_profit`, and boosted item score (query score +15 capped at 100 over
100% ROI, +5 over 60%) at least `min_deal_score`; the persisted record
carries that profit rounded to cents, the boosted score, and the
verdict HOT DEAL at ≥80% item ROI, GOOD DEAL at ≥50%, else the
query-level verdict. -/
theorem scan_opportunity_filter_spec :
    (∀ (wq : WatchQuery) (a : List Item) (ta : ℕ) (soldR : SubResult) (days : List ℕ),
      scanOneQuery wq (.ok (a, ta)) soldR days =
        a.filterMap (scanFilterItem wq.max_buy_price (wq.min_profit.getD 5)
          (wq.min_deal_score.getD 50)
          (analyzePrices a (degrade soldR).1 days ta (degrade soldR).2
              (degrade soldR).2).recommendation.estimated_sell_price
          (analyzePrices a (degrade soldR).1 days ta (degrade soldR).2
              (degrade soldR).2).deal_score.score
          (analyzePrices a (degrade soldR).1 days ta (degrade soldR).2
              (degrade soldR).2).deal_score.verdict wq.id)) ∧
    (∀ (mb : Option ℚ) (mp ms : ℚ) (es : Option ℚ) (q : ℤ) (qv wqid : String)
        (item : Item),
      (scanFilterItem mb mp ms es q qv wqid item ≠ none ↔
        ∃ p e, item.price = some p ∧ 0 < p ∧ (∀ b, mb = some b → p ≤ b) ∧
          es = some e ∧ 0 < e ∧ mp ≤ e * (87/100) - 7 - p ∧
          ms ≤ (((if 100 < (e * (87/100) - 7 - p) / p * 100 then min (q + 15) 100
                  else if 60 < (e * (87/100) - 7 - p) / p * 100 then min (q + 5) 100
                  else q) : ℤ) : ℚ)) ∧
      (∀ rec, scanFilterItem mb mp ms es q qv wqid item = some rec →
        ∃ p e, item.price = some p ∧ es = some e ∧
          rec.current_price = p ∧ rec.estimated_sell_price = e ∧
          rec.estimated_profit = roundC (e * (87/100) - 7 - p) ∧
          rec.deal_score =
            (if 100 < (e * (87/100) - 7 - p) / p * 100 then min (q + 15) 100
             else if 60 < (e * (87/100) - 7 - p) / p * 100 then min (q + 5) 100
             else q) ∧
          rec.deal_verdict =
            (if 80 ≤ (e * (87/100) - 7 - p) / p * 100 then "HOT DEAL"
             else if 50 ≤ (e * (87/100) - 7 - p) / p * 100 then "GOOD DEAL"
             else qv))) := by
  constructor
  · intro wq a ta soldR days
    simp only [scanOneQuery]
    by_cases ha : a = []
    · subst ha
      simp
    · rw [if_neg ha]
  · intro mb mp ms es q qv wqid item
    constructor
    · rw [Option.ne_none_iff_exists']
      constructor
      · rintro ⟨rec, hrec⟩
        obtain ⟨p, e, h1, h2, h3, h4, h5, h6, h7, -⟩ := scanFilterItem_eq_some_iff.mp hrec
        exact ⟨p, e, h1, h2, h3, h4, h5, h6, h7⟩
      · rintro ⟨p, e, h1, h2, h3, h4, h5, h6, h7⟩
        exact ⟨_, scanFilterItem_eq_some_iff.mpr ⟨p, e, h1, h2, h3, h4, h5, h6, h7, rfl⟩⟩
    · intro rec hrec
      obtain ⟨p, e, h1, -, -, h4, -, -, -, rfl⟩ := scanFilterItem_eq_some_iff.mp hrec
      exact ⟨p, e, h1, h4, rfl, rfl, rfl, rfl, rfl⟩

theorem scan_opportunity_filter_spec_witness :
    scanFilterItem none 5 50 (some 100) 46 "OKAY" "w1" ⟨"t", some 10, "u", "i", "c", "s"⟩
      ≠ none ∧
    ∀ rec, scanFilterItem none 5 50 (some 100) 46 "OKAY" "w1"
        ⟨"t", some 10, "u", "i", "c", "s"⟩ = some rec →
      rec.estimated_profit = 70 ∧ rec.deal_score = 61 ∧ rec.deal_verdict = "HOT DEAL" := by
  have h := (scan_opportunity_filter_spec.2 none 5 50 (some 100) 46 "OKAY" "w1"
    ⟨"t", some 10, "u", "i", "c", "s"⟩)
  constructor
  · refine h.1.mpr ⟨10, 100, rfl, by norm_num, by rintro b ⟨⟩, rfl, by norm_num, by norm_num, ?_⟩
    have : (100 : ℚ) * (87/100) - 7 - 10 = 70 := by norm_num
    rw [this]
    norm_num
  · intro rec hrec
    obtain ⟨p, e, h1, h2, -, -, hprof, hscore, hverd⟩ := h.2 rec hrec
    obtain rfl : (10 : ℚ) = p := Option.some_inj.mp h1
    obtain rfl : (100 : ℚ) = e := Option.some_inj.mp h2
    refine ⟨?_, ?_, ?_⟩
    · rw [hprof]
      with_unfolding_all decide
    · rw [hscore]
      norm_num
    · rw [hverd]
      norm_num

theorem sell_through_pct_nonneg (days : List ℕ) (ts tc ta : ℕ) :
    ∀ p, (calcSellThrough days ts tc ta).sell_through_pct = some p → 0 ≤ p := by
  intro p hp
  simp only [calcSellThrough] at hp
  split at hp
  · obtain rfl := Option.some_inj.mp hp.symm
    exact roundTo_nonneg (by positivity)
  · cases hp

/-- C4: with an undefined reference price the deal score is the
distinguished `NO DATA` score 0; otherwise the four sub-scores lie in
0–100 and follow the stated tiers, the breakdown reports them rounded,
the composite is their 0.40/0.35/0.15/0.10-weighted sum, and the
verdict is HOT DEAL iff composite ≥ 75, GOOD DEAL iff in [55, 75),
OKAY iff in [35, 55), else PASS. -/
theorem deal_score_spec (ref : Option ℚ) (sold : List ℚ) (days : List ℕ) (ts tc ta : ℕ) :
    (pyFalsy ref = true →
      calculateDealScore
          (calculateRecommendation ref sold (calcSellThrough days ts tc ta))
          (calcSellThrough days ts tc ta) =
        ⟨0, "NO DATA", "gray", "Not enough market data.", none⟩) ∧
    (pyFalsy ref = false →
      let st := calcSellThrough days ts tc ta
      let rcm := calculateRecommendation ref sold st
      let ds := calculateDealScore rcm st
      let roi := rcm.roi_percent.getD 0
      let profit_score : ℚ :=
        if 100 ≤ roi then 100 else if 60 ≤ roi then 80 else if 40 ≤ roi then 60
        else if 20 ≤ roi then 40 else max roi 0
      let demand : ℚ :=
        match st.sell_through_pct with
        | some p => min (p * (3/2)) 100
        | none =>
          if st.liquidity = "hot" then 80 else if st.liquidity = "steady" then 55 else 30
      let confs : ℚ :=
        if rcm.confidence = "high" then 100
        else if rcm.confidence = "medium" then 60 else 25
      let risk : ℚ :=
        max (80 - (if rcm.spread_warning ≠ none then 30 else 0)
          - (if rcm.liquidity_warning ≠ none then 20 else 0)) 0
      let composite :=
        profit_score * (40/100) + demand * (35/100) + confs * (15/100) + risk * (10/100)
      (0 ≤ profit_score ∧ profit_score ≤ 100) ∧
      (0 ≤ demand ∧ demand ≤ 100) ∧
      (0 ≤ confs ∧ confs ≤ 100) ∧
      (0 ≤ risk ∧ risk ≤ 100) ∧
      ds.breakdown =
        some ⟨halfEven profit_score, halfEven demand, halfEven confs, halfEven risk⟩ ∧
      ds.score = halfEven composite ∧
      (ds.verdict = "HOT DEAL" ↔ 75 ≤ composite) ∧
      (ds.verdict = "GOOD DEAL" ↔ 55 ≤ composite ∧ composite < 75) ∧
      (ds.verdict = "OKAY" ↔ 35 ≤ composite ∧ composite < 55) ∧
      (ds.verdict = "PASS" ↔ composite < 35)) := by
  constructor
  · intro hf
    simp [calculateDealScore, calculateRecommendation, hf]
  · intro hf
    intro st rcm ds roi profit_score demand confs risk composite
    have hpct := sell_through_pct_nonneg days ts tc ta
    have hno : ¬ (rcm.estimated_profit = none ∨ rcm.max_buy_price = none) := by
      unfold_let rcm
      simp [calculateRecommendation, hf]
    have hrisk :
        max (if rcm.liquidity_warning ≠ none
            then (if rcm.spread_warning ≠ none then (80:ℚ) - 30 else 80) - 20
            else (if rcm.spread_warning ≠ none then (80:ℚ) - 30 else 80)) 0 = risk := by
      unfold_let risk
      by_cases hs : rcm.spread_warning ≠ none <;>
        by_cases hl : rcm.liquidity_warning ≠ none <;>
          simp [hs, hl] <;> norm_num
    have hds : ds =
        { score := halfEven composite
          verdict :=
            (if 75 ≤ composite then ("HOT DEAL", "green")
             else if 55 ≤ composite then ("GOOD DEAL", "blue")
             else if 35 ≤ composite then ("OKAY", "yellow")
             else ("PASS", "red")).1
          color :=
            (if 75 ≤ composite then ("HOT DEAL", "green")
             else if 55 ≤ composite then ("GOOD DEAL", "blue")
             else if 35 ≤ composite then ("OKAY", "yellow")
             else ("PASS", "red")).2
          summary :=
            (if (if 75 ≤ composite then ("HOT DEAL", "green")
                 else if 55 ≤ composite then ("GOOD DEAL", "blue")
                 else if 35 ≤ composite then ("OKAY", "yellow")
                 else ("PASS", "red")).1 = "HOT DEAL" then
              "Strong profit margin with solid demand. Buy with confidence."
             else if (if 75 ≤ composite then ("HOT DEAL", "green")
                 else if 55 ≤ composite then ("GOOD DEAL", "blue")
                 else if 35 ≤ composite then ("OKAY", "yellow")
                 else ("PASS", "red")).1 = "GOOD DEAL" then
              "Decent profit potential. Worth picking up at the right price."
             else if (if 75 ≤ composite then ("HOT DEAL", "green")
                 else if 55 ≤ composite then ("GOOD DEAL", "blue")
                 else if 35 ≤ composite then ("OKAY", "yellow")
                 else ("PASS", "red")).1 = "OKAY" then
              "Marginal opportunity. Only buy if priced well below the max."
             else "Low margin or poor sell-through. Skip this one.")
          breakdown :=
            some ⟨halfEven profit_score, halfEven demand, halfEven confs,
              halfEven risk⟩ } := by
      unfold_let ds
      simp only [calculateDealScore, if_neg hno]
      unfold_let composite profit_score demand confs roi
      rw [hrisk]
    refine ⟨?_, ?_, ?_, ?_, ?_, ?_, ?_, ?_, ?_, ?_⟩
    · unfold_let profit_score
      split_ifs with h1 h2 h3 h4
      · norm_num
      · norm_num
      · norm_num
      · norm_num
      · have h4' : roi < 20 := not_le.mp h4
        exact ⟨le_max_right _ _, max_le (by linarith) (by norm_num)⟩
    · unfold_let demand
      cases hp : st.sell_through_pct with
      | some p =>
        have := hpct p hp
        constructor
        · exact le_min (by positivity) (by norm_num)
        · exact min_le_right _ _
      | none => split_ifs <;> norm_num
    · unfold_let confs
      split_ifs <;> norm_num
    · unfold_let risk
      constructor
      · exact le_max_right _ _
      · split_ifs <;> norm_num
    · rw [hds]
    · rw [hds]
    · rw [hds]
      by_cases h75 : 75 ≤ composite <;> by_cases h55 : 55 ≤ composite <;>
        by_cases h35 : 35 ≤ composite <;>
          simp [h75, h55, h35] <;> first | linarith | norm_num
    · rw [hds]
      by_cases h75 : 75 ≤ composite <;> by_cases h55 : 55 ≤ composite <;>
        by_cases h35 : 35 ≤ composite <;>
          simp [h75, h55, h35] <;> first | linarith | norm_num
    · rw [hds]
      by_cases h75 : 75 ≤ composite <;> by_cases h55 : 55 ≤ composite <;>
        by_cases h35 : 35 ≤ composite <;>
          simp [h75, h55, h35] <;> first | linarith | norm_num
    · rw [hds]
      by_cases h75 : 75 ≤ composite <;> by_cases h55 : 55 ≤ composite <;>
        by_cases h35 : 35 ≤ composite <;>
          simp [h75, h55, h35] <;> first | linarith | norm_num

theorem deal_score_spec_witness :
    pyFalsy none = true ∧
    calculateDealScore (calculateRecommendation none [] (calcSellThrough [] 0 0 0))
        (calcSellThrough [] 0 0 0) =
      ⟨0, "NO DATA", "gray", "Not enough market data.", none⟩ ∧
    pyFalsy (some 10) = false ∧
    (calculateDealScore (calculateRecommendation (some 10) [] (calcSellThrough [] 0 0 0))
        (calcSellThrough [] 0 0 0)).verdict = "OKAY" := by
  have h1 := (deal_score_spec none [] [] 0 0 0).1 rfl
  have h2 := (deal_score_spec (some 10) [] [] 0 0 0).2 (by with_unfolding_all decide)
  obtain ⟨-, -, -, -, -, -, -, -, hok, -⟩ := h2
  exact ⟨rfl, h1, by with_unfolding_all decide, hok.mpr (by with_unfolding_all decide)⟩

end Thrifter
